import Mathlib

/-!
Verification development for the team-credit management backend
(`app/services/team.py`, `app/services/credit.py`, `app/domains/models.py`,
`app/routes/credit.py`, `app/config.py`).

The two DynamoDB tables (`TeamMembers`, `Credits`) are modelled as Lean
lists; list order is the ascending order of the manager-email secondary
index, so a query with descending scan and limit 1 reads the last matching
list element, and a freshly put item (fresh uuid key, current timestamp)
appears at the end.  Items are keyed by a unique id; an `update_item` on the
id of a row obtained from a query is modelled as an in-place update of that
row's list position.  Wall-clock timestamps (`invitedAt`, `last_updated`)
are not observable by any property below and are omitted from the record
types.  External collaborators (SendGrid, Stripe signature verification,
uuid generation) are passed in as explicit parameters.
-/

set_option autoImplicit false

/-- A row of the `Credits` table (`CreditsDB`): unique id, manager email,
integer credit count.  The Python code never validates sign here, so the
field is an `Int`. -/
structure CreditRecord where
  rid : String
  manager_email : String
  credits : Int
  deriving Repr, DecidableEq

/-- A row of the `TeamMembers` table (`TeamMemberDB`). -/
structure TeamMember where
  mid : String
  manager_email : String
  team_member_email : String
  status : String
  generation_link : String
  result_page_link : String
  credits : Int
  deriving Repr, DecidableEq

/-- The shared store: the two DynamoDB tables. -/
structure Store where
  teamMembers : List TeamMember
  creditRecords : List CreditRecord
  deriving Repr, DecidableEq

/-- An HTTP error as raised via `HTTPException(status_code, detail)`. -/
structure HTTPError where
  status_code : Nat
  detail : String
  deriving Repr, DecidableEq

/-- Replace the first element satisfying `p` by its image under `f`
(DynamoDB `update_item` keyed on the id of the first matching row). -/
def updFirst {α : Type} (p : α → Bool) (f : α → α) : List α → List α
  | [] => []
  | a :: as => if p a then f a :: as else a :: updFirst p f as

/- ---------------------------------------------------------------------
Email validation, `team.py` `is_valid_email`: the regex
  ^[a-zA-Z0-9_.+-]+@[a-zA-Z0-9-]+\.[a-zA-Z0-9-.]+$
A match exists iff the string splits at its first at-sign into a nonempty
local part over the local character class, and the remainder splits at its
first dot into a nonempty dot-free host label and a nonempty tail over the
tail class (the host class excludes dots, so the literal dot of the pattern
must be the first dot after the at-sign; no class contains an at-sign, so
the at-sign of the pattern is the first one of the string).  The dollar
anchor is modelled as end-of-string.
--------------------------------------------------------------------- -/

/-- Character class `[a-zA-Z0-9_.+-]` of the local part. -/
def isLocalChar (c : Char) : Bool :=
  c.isAlpha || c.isDigit || c = '_' || c = '.' || c = '+' || c = '-'

/-- Character class `[a-zA-Z0-9-]` of the host label. -/
def isHostChar (c : Char) : Bool :=
  c.isAlpha || c.isDigit || c = '-'

/-- Character class `[a-zA-Z0-9-.]` of the domain tail. -/
def isTailChar (c : Char) : Bool :=
  c.isAlpha || c.isDigit || c = '-' || c = '.'

/-- Split a list at the first element satisfying `p`, dropping that
element; `none` when no element satisfies `p`. -/
def splitAtFirst {α : Type} (p : α → Bool) : List α → Option (List α × List α)
  | [] => none
  | a :: as =>
    if p a then some ([], as)
    else match splitAtFirst p as with
      | some (l, r) => some (a :: l, r)
      | none => none

/-- Model of `team.py` `is_valid_email`. -/
def is_valid_email (s : String) : Bool :=
  match splitAtFirst (fun c => c = '@') s.data with
  | none => false
  | some (lp, rest) =>
    !lp.isEmpty && lp.all isLocalChar &&
    match splitAtFirst (fun c => c = '.') rest with
    | none => false
    | some (host, tl) =>
      !host.isEmpty && host.all isHostChar && !tl.isEmpty && tl.all isTailChar

/- ---------------------------------------------------------------------
Discount calculator, `config.py` `DISCOUNTS` and `credit.py`
`apply_discount`.  The float rate literals are represented exactly as
rationals; no arithmetic is performed on them.
--------------------------------------------------------------------- -/

/-- The tier table of `config.py`. -/
def DISCOUNTS : List (Int × ℚ) :=
  [(100, 35/100), (50, 30/100), (15, 25/100), (5, 20/100)]

/-- Model of `credit.py` `apply_discount`: first tier whose threshold the
team size meets, else 0. -/
def apply_discount (team_size : Int) : ℚ :=
  match DISCOUNTS.find? (fun p => team_size ≥ p.1) with
  | some p => p.2
  | none => 0

/- ---------------------------------------------------------------------
Credit Ledger, `models.py` `CreditsDB` and `credit.py`.
--------------------------------------------------------------------- -/

/-- The `Credits` query of `CreditsDB.get_credits` and
`CreditsDB.update_credits`: manager-email index, descending scan, limit 1
— the last matching row in index order. -/
def lastCreditRecord (m : String) (st : Store) : Option CreditRecord :=
  st.creditRecords.reverse.find? (fun r => r.manager_email = m)

/-- Model of `CreditsDB.get_credits`: credits of the queried row, 0 when no
row matches. -/
def get_credits (m : String) (st : Store) : Int :=
  match lastCreditRecord m st with
  | some r => r.credits
  | none => 0

/-- Model of `CreditsDB.create_credits`: put a fresh item (fresh uuid key,
current timestamp, hence last in index order). -/
def create_credits (freshId m : String) (credits : Int) (st : Store) :
    CreditRecord × Store :=
  let item : CreditRecord := ⟨freshId, m, credits⟩
  (item, { st with creditRecords := st.creditRecords ++ [item] })

/-- Model of `CreditsDB.update_credits`: query the current row (descending,
limit 1); error when none exists, else `update_item` keyed on that row's id,
setting the credits.  There is no check on the sign of `credits`.  The
id-keyed update is modelled as the in-place update of the queried row, i.e.
of the last matching row in index order. -/
def update_credits (m : String) (credits : Int) (st : Store) :
    Except String (CreditRecord × Store) :=
  match lastCreditRecord m st with
  | none => Except.error ("No existing record found to update.")
  | some r =>
    Except.ok ({ r with credits := credits },
      { st with creditRecords :=
          (updFirst (fun q => q.manager_email = m)
            (fun q => { q with credits := credits })
            st.creditRecords.reverse).reverse })

/-- Model of `credit.py` `update_credit_data`: read the current balance,
add `credits_purchased`; create a fresh record when the read balance is 0,
else update the existing record. -/
def update_credit_data (freshId m : String) (credits_purchased : Int)
    (st : Store) : Except String (CreditRecord × Store) :=
  let current_credits := get_credits m st
  let new_total_credits := current_credits + credits_purchased
  if current_credits = 0 then
    Except.ok (create_credits freshId m new_total_credits st)
  else
    update_credits m new_total_credits st

/- ---------------------------------------------------------------------
Team Roster, `models.py` `TeamMemberDB` and `team.py`.
--------------------------------------------------------------------- -/

/-- Model of `TeamMemberDB.get_team_members` (also the service-level
`get_team_members` of `team.py`, which merely re-labels the fields):
manager-email index equality query. -/
def get_team_members (m : String) (st : Store) : List TeamMember :=
  st.teamMembers.filter (fun t => t.manager_email = m)

/-- Model of `TeamMemberDB.create_team_member`: put a fresh item whose id
is a fresh uuid (the id of the incoming schema object is discarded). -/
def create_team_member (freshId : String) (d : TeamMember) (st : Store) :
    Store :=
  { st with teamMembers := st.teamMembers ++ [{ d with mid := freshId }] }

/-- The row predicate of a member lookup under a manager. -/
def memberPred (m tm : String) (t : TeamMember) : Bool :=
  t.manager_email = m && t.team_member_email = tm

/-- The member lookup used by `invalidate_credit` and
`update_credits_in_members`: first row of the manager's query whose member
email matches. -/
def findMember (m tm : String) (st : Store) : Option TeamMember :=
  (get_team_members m st).find? (fun i => i.team_member_email = tm)

/-- Model of `TeamMemberDB.update_credits_in_members`: query the manager's
rows, error when none or when the member is absent or when the new credit
value is negative; else `update_item` keyed on the found row's id.  The
id-keyed update is modelled as the in-place update of the first matching
row. -/
def update_credits_in_members (m tm : String) (new_credits : Int)
    (st : Store) : Except String (TeamMember × Store) :=
  let items := get_team_members m st
  if items.isEmpty then Except.error ("Team member not found: " ++ tm)
  else match items.find? (fun i => i.team_member_email = tm) with
    | none => Except.error ("Team member not found: " ++ tm)
    | some member =>
      if new_credits < 0 then
        Except.error ("Invalid credit value (" ++ toString new_credits ++
          ") for " ++ tm)
      else
        let newMembers :=
          updFirst (memberPred m tm)
            (fun t => { t with credits := new_credits }) st.teamMembers
        Except.ok ({ member with credits := new_credits },
          { st with teamMembers := newMembers })

/-- Model of `team.py` `is_team_member_already_invited`: scan for a Pending
member with this email under this manager. -/
def is_team_member_already_invited (email : String)
    (team_members : List TeamMember) (manager_email : String) : Bool :=
  team_members.any (fun member =>
    member.team_member_email = email && member.status = "Pending" &&
      member.manager_email = manager_email)

/- ---------------------------------------------------------------------
Email sending, `team.py` `send_mail`.
--------------------------------------------------------------------- -/

/-- The environment of `send_mail`: the `FROM_EMAIL` variable (an unset
variable is modelled as the empty string, matching the falsiness test) and
whether the SendGrid API call succeeds. -/
structure EmailEnv where
  from_email : String
  sendgrid_ok : Bool
  deriving Repr, DecidableEq

/-- An email handed to SendGrid; `delivered` records whether the provider
call succeeded. -/
structure SentEmail where
  to_email : String
  subject : String
  body : String
  delivered : Bool
  deriving Repr, DecidableEq

/-- Model of `team.py` `send_mail`: raises `ValueError` when the sender or
recipient address is missing; the SendGrid call itself is wrapped in a
try/except that logs and swallows any provider error, so a failed delivery
does NOT propagate to the caller.  The returned list is the trace of
emails handed to the provider. -/
def send_mail (env : EmailEnv) (to_email subject body : String) :
    Except String (List SentEmail) :=
  if env.from_email = "" then
    Except.error ("Sender email address must be provided.")
  else if to_email = "" then
    Except.error ("Recipient email address must be provided.")
  else
    Except.ok [⟨to_email, subject, body, env.sendgrid_ok⟩]

/- ---------------------------------------------------------------------
Invite Workflow, `team.py` `invite_team_member`.
--------------------------------------------------------------------- -/

deriving instance DecidableEq for Except

/-- The value of `InviteResponseSchema`. -/
structure InviteResponse where
  status : String
  email : String
  deriving Repr, DecidableEq

/-- Result of one run of `invite_team_member`: the HTTP-level result, the
final store, and the trace of emails handed to the provider. -/
structure InviteOutcome where
  result : Except HTTPError InviteResponse
  store : Store
  emails : List SentEmail
  deriving Repr, DecidableEq

/-- Model of `team.py` `invite_team_member`.  Order, as in the source:
email-format check, self-invite check, duplicate-Pending check, coupon
generation, email send, credit-balance check, credit debit, member
creation.  The whole body runs inside one try statement whose handlers
turn a `TeamServiceError` into an `HTTPException` with the same status and
any other exception into a 500 — including the `HTTPException(400)` raised
for an insufficient balance, which is therefore re-raised as a 500 whose
detail wraps the exception text (starlette renders an `HTTPException` as
"status: detail").  The route handler re-raises `HTTPException` unchanged.
`coupon`, `freshCreditId` and `freshMemberId` are the uuids drawn during
the run; store writes are modelled as succeeding. -/
def invite_team_member (env : EmailEnv)
    (coupon freshCreditId freshMemberId : String)
    (invite_email manager_email : String) (st : Store) : InviteOutcome :=
  if !is_valid_email invite_email then
    ⟨Except.error ⟨400, ("Invalid email format")⟩, st, []⟩
  else if invite_email = manager_email then
    ⟨Except.error ⟨400, ("Manager cannot invite themselves")⟩, st, []⟩
  else if is_team_member_already_invited invite_email
      (get_team_members manager_email st) manager_email then
    ⟨Except.error ⟨409, ("Team member with email " ++ invite_email ++
      " is already invited")⟩, st, []⟩
  else
    let email_subject := ("Your Coupon for AI SuitUp")
    let email_body :=
      ("<strong>Your coupon code is: " ++ coupon ++ "</strong>")
    match send_mail env invite_email email_subject email_body with
    | Except.error msg =>
      ⟨Except.error ⟨500, ("Failed to send invitation email: " ++ msg)⟩,
        st, []⟩
    | Except.ok sent =>
      let current_credits := get_credits manager_email st
      if current_credits < 1 then
        ⟨Except.error ⟨500, ("An unexpected error occurred: " ++
          "400: Not enough credits. Please buy credits first.")⟩, st, sent⟩
      else
        match update_credit_data freshCreditId manager_email (-1) st with
        | Except.error msg =>
          ⟨Except.error ⟨500, ("An unexpected error occurred: " ++ msg)⟩,
            st, sent⟩
        | Except.ok (_, st1) =>
          let new_member : TeamMember :=
            ⟨freshMemberId, manager_email, invite_email, ("Pending"),
              ("https://aisuitup.com/generate/" ++ invite_email),
              ("https://aisuitup.com/results/" ++ invite_email), 1⟩
          let st2 := create_team_member freshMemberId new_member st1
          ⟨Except.ok ⟨("invited"), invite_email⟩, st2, sent⟩

/- ---------------------------------------------------------------------
Credit Invalidation Workflow, `credit.py` `invalidate_credit`, and its
route `invalidate_credit_route` of `routes/credit.py`.
--------------------------------------------------------------------- -/

/-- The value returned by a successful `invalidate_credit`. -/
structure InvalidateResult where
  status : String
  email : String
  creditsRestored : Int
  deriving Repr, DecidableEq

/-- Model of `credit.py` `invalidate_credit`.  Precondition order, as in
the source: member lookup, status check, held-credits check; then the
manager balance is read and written (+1), then the member credits are
written (−1).  A failure of the second write leaves the first write in
place. -/
def invalidate_credit (team_member_email manager_email : String)
    (st : Store) : Except HTTPError InvalidateResult × Store :=
  match findMember manager_email team_member_email st with
  | none =>
    (Except.error ⟨404, ("Team member not found: " ++ team_member_email)⟩,
      st)
  | some member =>
    if member.status ≠ "Pending" then
      (Except.error ⟨400, ("Cannot invalidate credits for team member " ++
        "with status: " ++ member.status)⟩, st)
    else if member.credits < 1 then
      (Except.error ⟨404, ("No credits found for team member: " ++
        team_member_email)⟩, st)
    else
      let current_credits := get_credits manager_email st
      match update_credits manager_email (current_credits + 1) st with
      | Except.error msg => (Except.error ⟨500, msg⟩, st)
      | Except.ok (_, st1) =>
        match update_credits_in_members manager_email team_member_email
            (member.credits - 1) st1 with
        | Except.error msg => (Except.error ⟨500, msg⟩, st1)
        | Except.ok (_, st2) =>
          (Except.ok ⟨("credit_invalidated"), team_member_email, 1⟩, st2)

/-- Model of `routes/credit.py` `invalidate_credit_route`: empty-email
check, email-format check, then the service call; `HTTPException`s are
re-raised unchanged. -/
def invalidate_credit_route (team_member_email manager_email : String)
    (st : Store) : Except HTTPError InvalidateResult × Store :=
  if team_member_email = "" then
    (Except.error ⟨400, ("Team member email is required")⟩, st)
  else if !is_valid_email team_member_email then
    (Except.error ⟨400, ("Invalid email format")⟩, st)
  else
    invalidate_credit team_member_email manager_email st

/- ---------------------------------------------------------------------
Purchase confirmation webhook, `routes/credit.py` `stripe_webhook`.
--------------------------------------------------------------------- -/

/-- The metadata-bearing event produced by a verified
`stripe.Webhook.construct_event`. -/
structure StripeEvent where
  type_ : String
  manager_email : String
  credits : Int
  deriving Repr, DecidableEq

/-- Outcome of header reading and signature verification, the part
delegated to the Stripe library. -/
inductive WebhookVerify where
  | missingHeader
  | invalidPayload
  | badSignature
  | otherError (msg : String)
  | verified (event : StripeEvent)
  deriving Repr, DecidableEq

/-- The acknowledgement body returned by the webhook route. -/
structure WebhookResponse where
  status : String
  message : String
  deriving Repr, DecidableEq

/-- Model of `routes/credit.py` `stripe_webhook`: reject with 400 when the
signature header is missing, the payload malformed, or the signature
invalid (500 for any other verification error); on a verified
"checkout.session.completed" event, credit the manager named in the
metadata via `update_credit_data`; acknowledge any other event type
without touching the ledger. -/
def stripe_webhook (verify : WebhookVerify) (freshId : String)
    (st : Store) : Except HTTPError WebhookResponse × Store :=
  match verify with
  | WebhookVerify.missingHeader =>
    (Except.error ⟨400, ("Missing stripe-signature header")⟩, st)
  | WebhookVerify.invalidPayload =>
    (Except.error ⟨400, ("Invalid payload format")⟩, st)
  | WebhookVerify.badSignature =>
    (Except.error ⟨400, ("Invalid signature. Check STRIPE_WEBHOOK_KEY.")⟩,
      st)
  | WebhookVerify.otherError msg =>
    (Except.error ⟨500, ("Webhook processing error: " ++ msg)⟩, st)
  | WebhookVerify.verified event =>
    if event.type_ = "checkout.session.completed" then
      match update_credit_data freshId event.manager_email event.credits
          st with
      | Except.error msg =>
        (Except.error ⟨500, ("Error updating credit data: " ++ msg)⟩, st)
      | Except.ok (_, st1) =>
        (Except.ok ⟨("success"), ("Credits updated successfully")⟩, st1)
    else
      (Except.ok ⟨("ignored"), ("Event not handled")⟩, st)

/- ---------------------------------------------------------------------
Infrastructure lemmas about `updFirst` and the query model.
--------------------------------------------------------------------- -/

/-- Finding with the updated predicate after an in-place update of the
first matching row yields the image of the old find, provided the update
preserves the predicate. -/
theorem find?_updFirst_self {α : Type} (p : α → Bool) (f : α → α)
    (hf : ∀ a, p a = true → p (f a) = true) :
    ∀ l : List α, (updFirst p f l).find? p = (l.find? p).map f := by
  intro l
  induction l with
  | nil => rfl
  | cons a as ih =>
    by_cases h : p a = true
    · simp [updFirst, h, hf a h]
    · simp only [Bool.not_eq_true] at h
      simp [updFirst, h, ih]

/-- An in-place update of the first row matching `p` is invisible to a
query by a predicate `q` that excludes every `p`-row and is preserved by
the update. -/
theorem find?_updFirst_other {α : Type} (p q : α → Bool) (f : α → α)
    (hpq : ∀ a, p a = true → q a = false)
    (hqf : ∀ a, q (f a) = q a) :
    ∀ l : List α, (updFirst p f l).find? q = l.find? q := by
  intro l
  induction l with
  | nil => rfl
  | cons a as ih =>
    by_cases h : p a = true
    · have hqa : q a = false := hpq a h
      simp [updFirst, h, hqf a, hqa]
    · simp only [Bool.not_eq_true] at h
      cases hq : q a with
      | true => simp [updFirst, h, hq]
      | false => simp [updFirst, h, hq, ih]

/-- An in-place update that preserves a row predicate `q` preserves the
number of rows matching `q`. -/
theorem length_filter_updFirst {α : Type} (p q : α → Bool) (f : α → α)
    (hqf : ∀ a, q (f a) = q a) :
    ∀ l : List α, ((updFirst p f l).filter q).length = (l.filter q).length := by
  intro l
  induction l with
  | nil => rfl
  | cons a as ih =>
    by_cases h : p a = true
    · cases hq : q a with
      | true => simp [updFirst, h, List.filter_cons, hqf a, hq]
      | false => simp [updFirst, h, List.filter_cons, hqf a, hq]
    · simp only [Bool.not_eq_true] at h
      cases hq : q a with
      | true => simp [updFirst, h, List.filter_cons, hq, ih]
      | false => simp [updFirst, h, List.filter_cons, hq, ih]

/-- Number of `Credits` rows held by a manager. -/
def creditRecordCount (m : String) (st : Store) : Nat :=
  (st.creditRecords.filter (fun r => r.manager_email = m)).length

/-- Two stores with the same `Credits` table give every manager the same
balance. -/
theorem get_credits_congr (m : String) (st1 st2 : Store)
    (h : st1.creditRecords = st2.creditRecords) :
    get_credits m st1 = get_credits m st2 := by
  unfold get_credits lastCreditRecord
  rw [h]


/-- The `Credits` table written by `update_credits` on manager `m` with
new value `c`. -/
def setBalanceRecords (m : String) (c : Int) (st : Store) : Store :=
  { st with creditRecords :=
      (updFirst (fun q => q.manager_email = m)
        (fun q => { q with credits := c })
        st.creditRecords.reverse).reverse }

/-- Effect of `CreditsDB.update_credits` when the manager has a current
row `r`: the call succeeds, the new balance reads back as written, no
other manager's query changes, the roster is untouched, and no row is
created or deleted. -/
theorem update_credits_ok (m : String) (c : Int) (st : Store)
    (r : CreditRecord) (hr : lastCreditRecord m st = some r) :
    update_credits m c st =
        Except.ok ({ r with credits := c }, setBalanceRecords m c st) ∧
      get_credits m (setBalanceRecords m c st) = c ∧
      (∀ m2, m2 ≠ m →
        lastCreditRecord m2 (setBalanceRecords m c st) =
          lastCreditRecord m2 st) ∧
      (setBalanceRecords m c st).teamMembers = st.teamMembers ∧
      (∀ m2, creditRecordCount m2 (setBalanceRecords m c st) =
        creditRecordCount m2 st) := by
  refine ⟨?_, ?_, ?_, rfl, ?_⟩
  · unfold update_credits setBalanceRecords
    rw [hr]
  · unfold get_credits lastCreditRecord setBalanceRecords
    simp only [List.reverse_reverse]
    rw [find?_updFirst_self (fun (q : CreditRecord) => decide (q.manager_email = m))
      (fun (q : CreditRecord) => { q with credits := c }) (fun a ha => ha)]
    unfold lastCreditRecord at hr
    rw [hr]
    simp
  · intro m2 hm2
    unfold lastCreditRecord setBalanceRecords
    simp only [List.reverse_reverse]
    rw [find?_updFirst_other]
    · intro a ha
      simp only [decide_eq_true_eq] at ha
      simp only [decide_eq_false_iff_not, ha]
      exact fun h => hm2 h.symm
    · intro a
      rfl
  · intro m2
    unfold creditRecordCount setBalanceRecords
    simp only [List.filter_reverse, List.length_reverse]
    rw [length_filter_updFirst (fun (q : CreditRecord) => decide (q.manager_email = m))
      (fun (r : CreditRecord) => decide (r.manager_email = m2))
      (fun (q : CreditRecord) => { q with credits := c }) (fun a => rfl)]
    simp [List.filter_reverse]


/-- A store whose `Credits` table gained one appended row answers the
descending limit-1 query with that row when it matches, and as before
otherwise. -/
theorem lastCreditRecord_of_append (m : String) (st st1 : Store)
    (x : CreditRecord) (h : st1.creditRecords = st.creditRecords ++ [x]) :
    lastCreditRecord m st1 =
      if x.manager_email = m then some x else lastCreditRecord m st := by
  unfold lastCreditRecord
  rw [h]
  simp only [List.reverse_append, List.reverse_cons, List.reverse_nil,
    List.nil_append, List.cons_append, List.nil_append]
  by_cases hx : x.manager_email = m
  · rw [if_pos hx, List.find?_cons_of_pos _ (by simp [hx])]
  · rw [if_neg hx, List.find?_cons_of_neg _ (by simp [hx])]

/-- Balance read after a row append. -/
theorem get_credits_of_append (m : String) (st st1 : Store)
    (x : CreditRecord) (h : st1.creditRecords = st.creditRecords ++ [x]) :
    get_credits m st1 =
      if x.manager_email = m then x.credits else get_credits m st := by
  unfold get_credits
  rw [lastCreditRecord_of_append m st st1 x h]
  by_cases hx : x.manager_email = m
  · rw [if_pos hx, if_pos hx]
  · rw [if_neg hx, if_neg hx]

/-- Two stores whose limit-1 queries agree for a manager give that
manager the same balance. -/
theorem get_credits_congr_last (m : String) (st1 st2 : Store)
    (h : lastCreditRecord m st1 = lastCreditRecord m st2) :
    get_credits m st1 = get_credits m st2 := by
  unfold get_credits
  rw [h]

/-- Effect of `credit.py` `update_credit_data`: it always succeeds, adds
the purchased amount to the manager's readable balance, leaves every other
manager's balance and the roster unchanged; when the read balance was 0 it
appends a fresh row, otherwise it creates no row for anybody. -/
theorem update_credit_data_effect (freshId m : String) (a : Int)
    (st : Store) :
    ∃ rec st1, update_credit_data freshId m a st = Except.ok (rec, st1) ∧
      get_credits m st1 = get_credits m st + a ∧
      (∀ m2, m2 ≠ m → get_credits m2 st1 = get_credits m2 st) ∧
      st1.teamMembers = st.teamMembers ∧
      (get_credits m st = 0 →
        st1.creditRecords = st.creditRecords ++ [⟨freshId, m, a⟩]) ∧
      (get_credits m st ≠ 0 →
        ∀ m2, creditRecordCount m2 st1 = creditRecordCount m2 st) := by
  by_cases h : get_credits m st = 0
  · have hok : update_credit_data freshId m a st =
        Except.ok (create_credits freshId m (get_credits m st + a) st) := by
      unfold update_credit_data
      rw [if_pos h]
    refine ⟨⟨freshId, m, get_credits m st + a⟩,
      { st with creditRecords :=
          st.creditRecords ++ [⟨freshId, m, get_credits m st + a⟩] },
      hok, ?_, ?_, rfl, ?_, fun hne => absurd h hne⟩
    · rw [get_credits_of_append m st
        { st with creditRecords :=
            st.creditRecords ++ [⟨freshId, m, get_credits m st + a⟩] }
        ⟨freshId, m, get_credits m st + a⟩ rfl]
      simp
    · intro m2 hm2
      rw [get_credits_of_append m2 st
        { st with creditRecords :=
            st.creditRecords ++ [⟨freshId, m, get_credits m st + a⟩] }
        ⟨freshId, m, get_credits m st + a⟩ rfl]
      exact if_neg (fun hh => hm2 hh.symm)
    · intro _
      show st.creditRecords ++ [⟨freshId, m, get_credits m st + a⟩] =
        st.creditRecords ++ [⟨freshId, m, a⟩]
      rw [h, zero_add]
  · have hr : ∃ r, lastCreditRecord m st = some r := by
      unfold get_credits at h
      cases hlast : lastCreditRecord m st with
      | none => rw [hlast] at h; simp at h
      | some r => exact ⟨r, rfl⟩
    obtain ⟨r, hrr⟩ := hr
    obtain ⟨hok, hbal, hoth, hteam, hcount⟩ :=
      update_credits_ok m (get_credits m st + a) st r hrr
    refine ⟨{ r with credits := get_credits m st + a },
      setBalanceRecords m (get_credits m st + a) st, ?_, hbal, ?_, hteam,
      fun h0 => absurd h0 h, fun _ => hcount⟩
    · unfold update_credit_data
      rw [if_neg h]
      exact hok
    · intro m2 hm2
      exact get_credits_congr_last m2 _ _ (hoth m2 hm2)

/- ---------------------------------------------------------------------
Claim C3, C4 and C6 theorems.
--------------------------------------------------------------------- -/

/-- A one-record ledger used to exercise `update_credits`. -/
def C3_store : Store := ⟨[], [⟨"r1", "m@x.com", 5⟩]⟩

/-- Claim C3, counterexample: the claim says `setBalance(m, -1)` fails for
every prior ledger state, but on a ledger holding a record of 5 credits for
the manager, `update_credits` with new balance −1 succeeds and stores the
negative balance, which then reads back as −1. -/
theorem C3_counterexample :
    update_credits ("m@x.com") (-1) C3_store =
      Except.ok (⟨"r1", "m@x.com", -1⟩, ⟨[], [⟨"r1", "m@x.com", -1⟩]⟩) ∧
    get_credits ("m@x.com") ⟨[], [⟨"r1", "m@x.com", -1⟩]⟩ = -1 := by
  constructor
  · rfl
  · rfl

/-- Claim C3 (amended): `setBalance` (`CreditsDB.update_credits`) fails
whenever no credit record exists for the manager; but it performs no check
on the requested new balance, so whenever a record exists it succeeds for
any integer — including −1, which is then stored and read back. -/
theorem C3_setBalance_amended (m : String) (c : Int) (st : Store) :
    (lastCreditRecord m st = none →
      update_credits m c st =
        Except.error ("No existing record found to update.")) ∧
    (∀ r, lastCreditRecord m st = some r →
      update_credits m c st =
        Except.ok ({ r with credits := c }, setBalanceRecords m c st) ∧
      get_credits m (setBalanceRecords m c st) = c) := by
  constructor
  · intro hnone
    unfold update_credits
    rw [hnone]
  · intro r hr
    obtain ⟨hok, hbal, _, _, _⟩ := update_credits_ok m c st r hr
    exact ⟨hok, hbal⟩

/-- Claim C3 witness: the amended theorem applied at a concrete ledger —
setting balance −1 on an existing record succeeds, and setting any balance
for an unknown manager fails. -/
theorem C3_setBalance_amended_witness :
    (update_credits ("m@x.com") (-1) C3_store =
      Except.ok (⟨"r1", "m@x.com", -1⟩,
        setBalanceRecords ("m@x.com") (-1) C3_store) ∧
     get_credits ("m@x.com") (setBalanceRecords ("m@x.com") (-1) C3_store) =
       -1) ∧
    update_credits ("nobody@x.com") 3 C3_store =
      Except.error ("No existing record found to update.") :=
  ⟨(C3_setBalance_amended ("m@x.com") (-1) C3_store).2
      ⟨"r1", "m@x.com", 5⟩ (by rfl),
   (C3_setBalance_amended ("nobody@x.com") 3 C3_store).1 (by rfl)⟩

/-- A ledger holding an existing zero-balance record for the manager. -/
def C4_store : Store := ⟨[], [⟨"r1", "m@x.com", 0⟩]⟩

/-- A ledger holding an existing five-credit record for the manager. -/
def C4_store2 : Store := ⟨[], [⟨"r1", "m@x.com", 5⟩]⟩

/-- Claim C4, counterexample: the claim says `credit` creates a fresh
record only when no record exists for the manager; but on a ledger already
holding a (zero-balance) record for the manager, `update_credit_data`
appends a second record for the same manager. -/
theorem C4_counterexample :
    update_credit_data ("r2") ("m@x.com") 5 C4_store =
      Except.ok (⟨"r2", "m@x.com", 5⟩,
        ⟨[], [⟨"r1", "m@x.com", 0⟩, ⟨"r2", "m@x.com", 5⟩]⟩) ∧
    creditRecordCount ("m@x.com")
      ⟨[], [⟨"r1", "m@x.com", 0⟩, ⟨"r2", "m@x.com", 5⟩]⟩ = 2 := by
  constructor
  · rfl
  · rfl

/-- Claim C4 (amended): `credit` (`update_credit_data`) creates a fresh
record whenever the read balance is 0 — that is, when no record exists OR
when the manager's existing record holds 0 credits — with the created
record holding exactly the credited amount; otherwise it adds the amount
to the existing record and creates no new record for any manager.  A
manager whose existing record holds 0 credits therefore ends up with two
records, so the one-record-per-manager invariant is not preserved. -/
theorem C4_credit_record_amended (freshId m : String) (a : Int)
    (st : Store) :
    (get_credits m st = 0 →
      ∃ rec st1, update_credit_data freshId m a st = Except.ok (rec, st1) ∧
        st1.creditRecords = st.creditRecords ++ [⟨freshId, m, a⟩] ∧
        creditRecordCount m st1 = creditRecordCount m st + 1) ∧
    (get_credits m st ≠ 0 →
      ∃ rec st1, update_credit_data freshId m a st = Except.ok (rec, st1) ∧
        (∀ m2, creditRecordCount m2 st1 = creditRecordCount m2 st) ∧
        get_credits m st1 = get_credits m st + a) := by
  obtain ⟨rec, st1, hok, hbal, _, _, happ, hcount⟩ :=
    update_credit_data_effect freshId m a st
  constructor
  · intro h0
    refine ⟨rec, st1, hok, happ h0, ?_⟩
    unfold creditRecordCount
    rw [happ h0, List.filter_append]
    simp
  · intro hne
    exact ⟨rec, st1, hok, hcount hne, hbal⟩

/-- Claim C4 witness: the amended theorem applied at concrete ledgers —
crediting 5 to a manager whose record holds 0 appends a second record;
crediting 7 to a manager whose record holds 5 creates no record and adds
to the balance. -/
theorem C4_credit_record_amended_witness :
    (∃ rec st1, update_credit_data ("r2") ("m@x.com") 5 C4_store =
        Except.ok (rec, st1) ∧
      st1.creditRecords = C4_store.creditRecords ++ [⟨"r2", "m@x.com", 5⟩] ∧
      creditRecordCount ("m@x.com") st1 =
        creditRecordCount ("m@x.com") C4_store + 1) ∧
    (∃ rec st1, update_credit_data ("r2") ("m@x.com") 7 C4_store2 =
        Except.ok (rec, st1) ∧
      (∀ m2, creditRecordCount m2 st1 = creditRecordCount m2 C4_store2) ∧
      get_credits ("m@x.com") st1 =
        get_credits ("m@x.com") C4_store2 + 7) :=
  ⟨(C4_credit_record_amended ("r2") ("m@x.com") 5 C4_store).1 (by rfl),
   (C4_credit_record_amended ("r2") ("m@x.com") 7 C4_store2).2 (by decide)⟩

/-- Claim C6: the discount calculator is pure and total on team sizes,
first match wins over the tier table — size ≥ 100 gives 0.35, ≥ 50 gives
0.30, ≥ 15 gives 0.25, ≥ 5 gives 0.20, else 0 — and the ten sample sizes
map to the claimed rates. -/
theorem C6_apply_discount (n : ℕ) :
    (apply_discount n =
      if 100 ≤ n then 35/100 else if 50 ≤ n then 30/100
      else if 15 ≤ n then 25/100 else if 5 ≤ n then 20/100 else 0) ∧
    apply_discount 0 = 0 ∧ apply_discount 4 = 0 ∧
    apply_discount 5 = 20/100 ∧ apply_discount 14 = 20/100 ∧
    apply_discount 15 = 25/100 ∧ apply_discount 49 = 25/100 ∧
    apply_discount 50 = 30/100 ∧ apply_discount 99 = 30/100 ∧
    apply_discount 100 = 35/100 ∧ apply_discount 1000 = 35/100 := by
  refine ⟨?_, ?_, ?_, ?_, ?_, ?_, ?_, ?_, ?_, ?_, ?_⟩
  · unfold apply_discount DISCOUNTS
    by_cases h100 : 100 ≤ n
    · rw [List.find?_cons_of_pos _ (by simp; exact_mod_cast h100)]
      rw [if_pos h100]
    · rw [List.find?_cons_of_neg _ (by simp; omega)]
      rw [if_neg h100]
      by_cases h50 : 50 ≤ n
      · rw [List.find?_cons_of_pos _ (by simp; exact_mod_cast h50)]
        rw [if_pos h50]
      · rw [List.find?_cons_of_neg _ (by simp; omega)]
        rw [if_neg h50]
        by_cases h15 : 15 ≤ n
        · rw [List.find?_cons_of_pos _ (by simp; exact_mod_cast h15)]
          rw [if_pos h15]
        · rw [List.find?_cons_of_neg _ (by simp; omega)]
          rw [if_neg h15]
          by_cases h5 : 5 ≤ n
          · rw [List.find?_cons_of_pos _ (by simp; exact_mod_cast h5)]
            rw [if_pos h5]
          · rw [List.find?_cons_of_neg _ (by simp; omega)]
            rw [if_neg h5]
            rfl
  all_goals norm_num [apply_discount, DISCOUNTS, List.find?]

/- ---------------------------------------------------------------------
Roster helper lemmas.
--------------------------------------------------------------------- -/

/-- Finding in a filtered list is finding with the conjunction of the
predicates. -/
theorem find?_filter_and {α : Type} (p q : α → Bool) :
    ∀ l : List α, (l.filter p).find? q = l.find? (fun a => p a && q a)
  | [] => rfl
  | a :: as => by
    cases hp : p a with
    | true =>
      cases hq : q a with
      | true => simp [List.filter_cons, hp, hq]
      | false => simp [List.filter_cons, hp, hq, find?_filter_and p q as]
    | false => simp [List.filter_cons, hp, find?_filter_and p q as]

/-- The filtered member lookup equals a raw-table find with the combined
predicate. -/
theorem findMember_eq_raw (m tm : String) (st : Store) :
    findMember m tm st = st.teamMembers.find? (memberPred m tm) := by
  unfold findMember get_team_members
  rw [find?_filter_and]
  rfl

/-- Stores with the same roster answer member lookups identically. -/
theorem findMember_congr (m tm : String) (st1 st2 : Store)
    (h : st1.teamMembers = st2.teamMembers) :
    findMember m tm st1 = findMember m tm st2 := by
  rw [findMember_eq_raw, findMember_eq_raw, h]

/-- The roster written by `update_credits_in_members` for member `tm` of
manager `m` with new credit value `c`. -/
def setMemberCredits (m tm : String) (c : Int) (st : Store) : Store :=
  { st with teamMembers :=
      (updFirst (memberPred m tm)
        (fun t => { t with credits := c }) st.teamMembers) }

/-- Effect of `TeamMemberDB.update_credits_in_members` when the member is
present and the new credit value is nonnegative: the call succeeds, writes
only the roster, and the member reads back with the new credits. -/
theorem update_credits_in_members_ok (m tm : String) (c : Int) (st : Store)
    (mem : TeamMember) (hmem : findMember m tm st = some mem)
    (hc : 0 ≤ c) :
    update_credits_in_members m tm c st =
      Except.ok ({ mem with credits := c }, setMemberCredits m tm c st) ∧
    findMember m tm (setMemberCredits m tm c st) =
      some { mem with credits := c } := by
  have hfind : (get_team_members m st).find?
      (fun i => i.team_member_email = tm) = some mem := hmem
  have hne : (get_team_members m st).isEmpty = false := by
    cases hgt : get_team_members m st with
    | nil => rw [hgt] at hfind; simp at hfind
    | cons a as => simp
  constructor
  · unfold update_credits_in_members setMemberCredits
    simp only [hne, Bool.false_eq_true, if_false, hfind,
      if_neg (not_lt.mpr hc)]
  · rw [findMember_eq_raw]
    unfold setMemberCredits
    show List.find? (memberPred m tm)
      (updFirst (memberPred m tm)
        (fun t => { t with credits := c }) st.teamMembers) = _
    rw [find?_updFirst_self (memberPred m tm)
      (fun (t : TeamMember) => { t with credits := c }) (fun a ha => ha)]
    rw [findMember_eq_raw] at hmem
    rw [hmem]
    rfl

/-- Failure shape of `invalidate_credit` when the member is absent. -/
theorem invalidate_credit_not_found (tm m : String) (st : Store)
    (h : findMember m tm st = none) :
    invalidate_credit tm m st =
      (Except.error ⟨404, ("Team member not found: " ++ tm)⟩, st) := by
  unfold invalidate_credit
  rw [h]

/-- Failure shape of `invalidate_credit` on a non-Pending member. -/
theorem invalidate_credit_bad_status (tm m : String) (st : Store)
    (mem : TeamMember) (h : findMember m tm st = some mem)
    (hs : mem.status ≠ "Pending") :
    invalidate_credit tm m st =
      (Except.error ⟨400, ("Cannot invalidate credits for team member " ++
        "with status: " ++ mem.status)⟩, st) := by
  unfold invalidate_credit
  rw [h]
  simp only [if_pos hs]

/-- Failure shape of `invalidate_credit` on a Pending member without
credits. -/
theorem invalidate_credit_no_credits (tm m : String) (st : Store)
    (mem : TeamMember) (h : findMember m tm st = some mem)
    (hs : mem.status = "Pending") (hc : mem.credits < 1) :
    invalidate_credit tm m st =
      (Except.error ⟨404, ("No credits found for team member: " ++ tm)⟩,
        st) := by
  have hns : ¬ mem.status ≠ "Pending" := fun hne => hne hs
  unfold invalidate_credit
  rw [h]
  simp only [if_neg hns, if_pos hc]

/- ---------------------------------------------------------------------
Claim C7, C8 and C10 theorems.
--------------------------------------------------------------------- -/

/-- Claim C7: invalidating a member who exists under the manager, is
Pending and holds at least one credit (with the manager-balance write able
to succeed, i.e. a credit record exists) first writes the manager balance
as its prior value plus 1, then writes the member credits as their prior
value minus 1, returns a confirmation restoring exactly 1 credit, and the
two values read back accordingly. -/
theorem C7_invalidate_success (tm m : String) (st : Store)
    (mem : TeamMember) (r : CreditRecord)
    (hmem : findMember m tm st = some mem)
    (hstatus : mem.status = "Pending")
    (hcred : 1 ≤ mem.credits)
    (hrec : lastCreditRecord m st = some r) :
    ∃ st1 st2,
      update_credits m (get_credits m st + 1) st =
        Except.ok ({ r with credits := get_credits m st + 1 }, st1) ∧
      update_credits_in_members m tm (mem.credits - 1) st1 =
        Except.ok ({ mem with credits := mem.credits - 1 }, st2) ∧
      invalidate_credit tm m st =
        (Except.ok ⟨("credit_invalidated"), tm, 1⟩, st2) ∧
      get_credits m st2 = get_credits m st + 1 ∧
      findMember m tm st2 = some { mem with credits := mem.credits - 1 } := by
  obtain ⟨hok1, hbal1, _, hteam1, _⟩ :=
    update_credits_ok m (get_credits m st + 1) st r hrec
  have hmem1 : findMember m tm (setBalanceRecords m (get_credits m st + 1) st)
      = some mem := by
    rw [findMember_congr m tm _ st hteam1]
    exact hmem
  obtain ⟨hok2, hfind2⟩ := update_credits_in_members_ok m tm
    (mem.credits - 1) (setBalanceRecords m (get_credits m st + 1) st) mem
    hmem1 (by omega)
  have hns : ¬ mem.status ≠ "Pending" := fun hne => hne hstatus
  have hnc : ¬ mem.credits < 1 := by omega
  refine ⟨setBalanceRecords m (get_credits m st + 1) st,
    setMemberCredits m tm (mem.credits - 1)
      (setBalanceRecords m (get_credits m st + 1) st),
    hok1, hok2, ?_, ?_, hfind2⟩
  · unfold invalidate_credit
    rw [hmem]
    simp only [if_neg hns, if_neg hnc, hok1, hok2]
  · have hcr : (setMemberCredits m tm (mem.credits - 1)
        (setBalanceRecords m (get_credits m st + 1) st)).creditRecords =
        (setBalanceRecords m (get_credits m st + 1) st).creditRecords := rfl
    rw [get_credits_congr m _ _ hcr]
    exact hbal1

/-- The concrete state of the C7 witness: one Pending member with one
credit under a manager holding three credits. -/
def C7_store : Store :=
  ⟨[⟨"t1", "m@x.com", "a@b.com", "Pending", "g", "r", 1⟩],
    [⟨"r1", "m@x.com", 3⟩]⟩

/-- Claim C7 witness: the success theorem applied at the concrete state —
the manager's balance write (4) precedes the member write (0), the
confirmation restores 1, and both values read back. -/
theorem C7_invalidate_success_witness :
    ∃ st1 st2,
      update_credits ("m@x.com") (get_credits ("m@x.com") C7_store + 1)
          C7_store =
        Except.ok (⟨"r1", "m@x.com", get_credits ("m@x.com") C7_store + 1⟩,
          st1) ∧
      update_credits_in_members ("m@x.com") ("a@b.com")
          ((1 : Int) - 1) st1 =
        Except.ok (⟨"t1", "m@x.com", "a@b.com", "Pending", "g", "r",
          (1 : Int) - 1⟩, st2) ∧
      invalidate_credit ("a@b.com") ("m@x.com") C7_store =
        (Except.ok ⟨("credit_invalidated"), ("a@b.com"), 1⟩, st2) ∧
      get_credits ("m@x.com") st2 = get_credits ("m@x.com") C7_store + 1 ∧
      findMember ("m@x.com") ("a@b.com") st2 =
        some ⟨"t1", "m@x.com", "a@b.com", "Pending", "g", "r",
          (1 : Int) - 1⟩ :=
  C7_invalidate_success ("a@b.com") ("m@x.com") C7_store
    ⟨"t1", "m@x.com", "a@b.com", "Pending", "g", "r", 1⟩
    ⟨"r1", "m@x.com", 3⟩ (by rfl) (by rfl) (by norm_num) (by rfl)

/-- Claim C8: the three preconditions of the Credit Invalidation Workflow
are checked in order — member exists (else 404), member Pending (else
400), member holds a credit (else 404) — and every precondition failure
leaves the store (manager balance and member credits) unchanged. -/
theorem C8_invalidate_preconditions (tm m : String) (st : Store) :
    (findMember m tm st = none →
      invalidate_credit tm m st =
        (Except.error ⟨404, ("Team member not found: " ++ tm)⟩, st)) ∧
    (∀ mem, findMember m tm st = some mem → mem.status ≠ "Pending" →
      invalidate_credit tm m st =
        (Except.error ⟨400, ("Cannot invalidate credits for team member " ++
          "with status: " ++ mem.status)⟩, st)) ∧
    (∀ mem, findMember m tm st = some mem → mem.status = "Pending" →
      mem.credits < 1 →
      invalidate_credit tm m st =
        (Except.error ⟨404, ("No credits found for team member: " ++ tm)⟩,
          st)) :=
  ⟨fun h => invalidate_credit_not_found tm m st h,
   fun mem h hs => invalidate_credit_bad_status tm m st mem h hs,
   fun mem h hs hc => invalidate_credit_no_credits tm m st mem h hs hc⟩

/-- The concrete state of the C8 witness: an Active member and a Pending
member without credits under the same manager. -/
def C8_store : Store :=
  ⟨[⟨"t1", "m@x.com", "a@b.com", "Active", "g", "r", 1⟩,
    ⟨"t2", "m@x.com", "c@d.com", "Pending", "g", "r", 0⟩],
    [⟨"r1", "m@x.com", 3⟩]⟩

/-- Claim C8 witness: the precondition theorem applied at concrete states —
a missing member gives 404, an Active member 400, a Pending member without
credits 404, all leaving the store unchanged. -/
theorem C8_invalidate_preconditions_witness :
    invalidate_credit ("x@y.com") ("m@x.com") C8_store =
      (Except.error ⟨404, ("Team member not found: " ++ "x@y.com")⟩,
        C8_store) ∧
    invalidate_credit ("a@b.com") ("m@x.com") C8_store =
      (Except.error ⟨400, ("Cannot invalidate credits for team member " ++
        "with status: " ++ "Active")⟩, C8_store) ∧
    invalidate_credit ("c@d.com") ("m@x.com") C8_store =
      (Except.error ⟨404, ("No credits found for team member: " ++
        "c@d.com")⟩, C8_store) :=
  ⟨(C8_invalidate_preconditions ("x@y.com") ("m@x.com") C8_store).1
      (by rfl),
   (C8_invalidate_preconditions ("a@b.com") ("m@x.com") C8_store).2.1
      ⟨"t1", "m@x.com", "a@b.com", "Active", "g", "r", 1⟩ (by rfl)
      (by decide),
   (C8_invalidate_preconditions ("c@d.com") ("m@x.com") C8_store).2.2
      ⟨"t2", "m@x.com", "c@d.com", "Pending", "g", "r", 0⟩ (by rfl)
      (by rfl) (by norm_num)⟩

/-- Claim C10: the invalidate-credit route rejects an empty or
syntactically invalid team-member email with 400 before any store lookup
(the store is returned unchanged and the outcome is independent of the
store), so an invalid email of a nonexistent member yields 400 where the
service alone would yield the NotFound 404. -/
theorem C10_invalidate_route_validation (tm m : String) (st : Store) :
    (tm = "" →
      invalidate_credit_route tm m st =
        (Except.error ⟨400, ("Team member email is required")⟩, st)) ∧
    (tm ≠ "" → is_valid_email tm = false →
      invalidate_credit_route tm m st =
        (Except.error ⟨400, ("Invalid email format")⟩, st)) ∧
    (tm ≠ "" → is_valid_email tm = false → findMember m tm st = none →
      invalidate_credit_route tm m st =
        (Except.error ⟨400, ("Invalid email format")⟩, st) ∧
      invalidate_credit tm m st =
        (Except.error ⟨404, ("Team member not found: " ++ tm)⟩, st)) := by
  refine ⟨?_, ?_, ?_⟩
  · intro h
    unfold invalidate_credit_route
    rw [if_pos h]
  · intro h hv
    unfold invalidate_credit_route
    rw [if_neg h]
    simp only [hv, Bool.not_false, if_true]
  · intro h hv hnf
    refine ⟨?_, invalidate_credit_not_found tm m st hnf⟩
    unfold invalidate_credit_route
    rw [if_neg h]
    simp only [hv, Bool.not_false, if_true]

/-- Claim C10 witness: the route theorem applied at a concrete empty store
— the empty email and a malformed email both give 400, and the malformed
email of the nonexistent member gives 400 at the route where the service
gives 404. -/
theorem C10_invalidate_route_validation_witness :
    (invalidate_credit_route ("") ("m@x.com") ⟨[], []⟩ =
      (Except.error ⟨400, ("Team member email is required")⟩, ⟨[], []⟩)) ∧
    (invalidate_credit_route ("not-an-email") ("m@x.com") ⟨[], []⟩ =
        (Except.error ⟨400, ("Invalid email format")⟩, ⟨[], []⟩) ∧
      invalidate_credit ("not-an-email") ("m@x.com") ⟨[], []⟩ =
        (Except.error ⟨404, ("Team member not found: " ++ "not-an-email")⟩,
          ⟨[], []⟩)) :=
  ⟨(C10_invalidate_route_validation ("") ("m@x.com") ⟨[], []⟩).1 rfl,
   (C10_invalidate_route_validation ("not-an-email") ("m@x.com")
      ⟨[], []⟩).2.2 (by decide) (by decide) (by rfl)⟩

/- ---------------------------------------------------------------------
Claim C5 theorem.
--------------------------------------------------------------------- -/

/-- Claim C5: the webhook mutates the ledger only after successful
signature verification and only for a "checkout.session.completed" event —
a missing header, malformed payload or bad signature is rejected with 400
and the store is unchanged; any other verified event type is acknowledged
with the store unchanged; and a verified completed event for manager X
with N credits raises X's balance by exactly N, leaves every other
manager's balance unchanged, and leaves the roster unchanged. -/
theorem C5_stripe_webhook (freshId : String) (st : Store) :
    (stripe_webhook WebhookVerify.missingHeader freshId st =
      (Except.error ⟨400, ("Missing stripe-signature header")⟩, st)) ∧
    (stripe_webhook WebhookVerify.invalidPayload freshId st =
      (Except.error ⟨400, ("Invalid payload format")⟩, st)) ∧
    (stripe_webhook WebhookVerify.badSignature freshId st =
      (Except.error ⟨400, ("Invalid signature. Check STRIPE_WEBHOOK_KEY.")⟩,
        st)) ∧
    (∀ ev, ev.type_ ≠ "checkout.session.completed" →
      stripe_webhook (WebhookVerify.verified ev) freshId st =
        (Except.ok ⟨("ignored"), ("Event not handled")⟩, st)) ∧
    (∀ ev, ev.type_ = "checkout.session.completed" →
      ∃ st1, stripe_webhook (WebhookVerify.verified ev) freshId st =
          (Except.ok ⟨("success"), ("Credits updated successfully")⟩,
            st1) ∧
        get_credits ev.manager_email st1 =
          get_credits ev.manager_email st + ev.credits ∧
        (∀ m2, m2 ≠ ev.manager_email →
          get_credits m2 st1 = get_credits m2 st) ∧
        st1.teamMembers = st.teamMembers) := by
  refine ⟨rfl, rfl, rfl, ?_, ?_⟩
  · intro ev hne
    simp only [stripe_webhook]
    rw [if_neg hne]
  · intro ev he
    obtain ⟨rec, st1, hok, hbal, hoth, hteam, _, _⟩ :=
      update_credit_data_effect freshId ev.manager_email ev.credits st
    refine ⟨st1, ?_, hbal, hoth, hteam⟩
    simp only [stripe_webhook]
    rw [if_pos he, hok]

/-- Claim C5 witness: the webhook theorem applied at a concrete ledger —
verification failures and a foreign event type leave the single-record
store untouched, and a verified completed event for the manager with 10
credits yields balance plus 10. -/
theorem C5_stripe_webhook_witness :
    (stripe_webhook WebhookVerify.badSignature ("f1")
        ⟨[], [⟨"r1", "x@y.com", 2⟩]⟩ =
      (Except.error ⟨400, ("Invalid signature. Check STRIPE_WEBHOOK_KEY.")⟩,
        ⟨[], [⟨"r1", "x@y.com", 2⟩]⟩)) ∧
    (stripe_webhook
        (WebhookVerify.verified ⟨"payment_intent.created", "x@y.com", 10⟩)
        ("f1") ⟨[], [⟨"r1", "x@y.com", 2⟩]⟩ =
      (Except.ok ⟨("ignored"), ("Event not handled")⟩,
        ⟨[], [⟨"r1", "x@y.com", 2⟩]⟩)) ∧
    (∃ st1, stripe_webhook
          (WebhookVerify.verified
            ⟨"checkout.session.completed", "x@y.com", 10⟩)
          ("f1") ⟨[], [⟨"r1", "x@y.com", 2⟩]⟩ =
        (Except.ok ⟨("success"), ("Credits updated successfully")⟩, st1) ∧
      get_credits ("x@y.com") st1 =
        get_credits ("x@y.com") ⟨[], [⟨"r1", "x@y.com", 2⟩]⟩ + 10 ∧
      (∀ m2, m2 ≠ "x@y.com" →
        get_credits m2 st1 =
          get_credits m2 ⟨[], [⟨"r1", "x@y.com", 2⟩]⟩) ∧
      st1.teamMembers = Store.teamMembers ⟨[], [⟨"r1", "x@y.com", 2⟩]⟩) :=
  ⟨(C5_stripe_webhook ("f1") ⟨[], [⟨"r1", "x@y.com", 2⟩]⟩).2.2.1,
   (C5_stripe_webhook ("f1") ⟨[], [⟨"r1", "x@y.com", 2⟩]⟩).2.2.2.1
      ⟨"payment_intent.created", "x@y.com", 10⟩ (by decide),
   (C5_stripe_webhook ("f1") ⟨[], [⟨"r1", "x@y.com", 2⟩]⟩).2.2.2.2
      ⟨"checkout.session.completed", "x@y.com", 10⟩ (by rfl)⟩

/- ---------------------------------------------------------------------
Claim C9 theorem (successful invite), C1 and C2 evaluations.
--------------------------------------------------------------------- -/

/-- Claim C9: an invite satisfying all four preconditions whose external
and store calls succeed debits the manager's balance by exactly 1, appends
exactly one new Pending member with credits 1 and generation/result links
derived from the invitee email, returns the invited status with the
invitee email, sends exactly the one coupon email, and changes no other
member record and no other manager's balance. -/
theorem C9_invite_success (env : EmailEnv)
    (coupon freshCreditId freshMemberId invite_email manager_email : String)
    (st : Store)
    (hvalid : is_valid_email invite_email = true)
    (hself : invite_email ≠ manager_email)
    (hdup : is_team_member_already_invited invite_email
      (get_team_members manager_email st) manager_email = false)
    (hfrom : env.from_email ≠ "")
    (hsend : env.sendgrid_ok = true)
    (hbal : 1 ≤ get_credits manager_email st) :
    ∃ st2,
      invite_team_member env coupon freshCreditId freshMemberId
          invite_email manager_email st =
        ⟨Except.ok ⟨("invited"), invite_email⟩, st2,
          [⟨invite_email, ("Your Coupon for AI SuitUp"),
            ("<strong>Your coupon code is: " ++ coupon ++ "</strong>"),
            true⟩]⟩ ∧
      get_credits manager_email st2 = get_credits manager_email st - 1 ∧
      st2.teamMembers = st.teamMembers ++
        [⟨freshMemberId, manager_email, invite_email, ("Pending"),
          ("https://aisuitup.com/generate/" ++ invite_email),
          ("https://aisuitup.com/results/" ++ invite_email), 1⟩] ∧
      (∀ m2, m2 ≠ manager_email →
        get_credits m2 st2 = get_credits m2 st) := by
  have hne : invite_email ≠ "" := by
    intro h
    rw [h] at hvalid
    have hfalse : is_valid_email ("") = false := by decide
    rw [hfalse] at hvalid
    cases hvalid
  have hsendeq : send_mail env invite_email ("Your Coupon for AI SuitUp")
      ("<strong>Your coupon code is: " ++ coupon ++ "</strong>") =
      Except.ok [⟨invite_email, ("Your Coupon for AI SuitUp"),
        ("<strong>Your coupon code is: " ++ coupon ++ "</strong>"),
        true⟩] := by
    unfold send_mail
    rw [if_neg hfrom, if_neg hne, hsend]
  obtain ⟨rec, st1, hok, hbal1, hoth, hteam, _, _⟩ :=
    update_credit_data_effect freshCreditId manager_email (-1) st
  have hlt : ¬ get_credits manager_email st < 1 := by omega
  refine ⟨create_team_member freshMemberId
    ⟨freshMemberId, manager_email, invite_email, ("Pending"),
      ("https://aisuitup.com/generate/" ++ invite_email),
      ("https://aisuitup.com/results/" ++ invite_email), 1⟩ st1,
    ?_, ?_, ?_, ?_⟩
  · unfold invite_team_member
    rw [hvalid]
    simp only [Bool.not_true, Bool.false_eq_true, if_false,
      if_neg hself, hdup, hsendeq, if_neg hlt, hok]
  · have hcr : (create_team_member freshMemberId
        ⟨freshMemberId, manager_email, invite_email, ("Pending"),
          ("https://aisuitup.com/generate/" ++ invite_email),
          ("https://aisuitup.com/results/" ++ invite_email), 1⟩
        st1).creditRecords = st1.creditRecords := rfl
    rw [get_credits_congr manager_email _ _ hcr, hbal1]
    omega
  · show st1.teamMembers ++ _ = _
    rw [hteam]
  · intro m2 hm2
    have hcr : (create_team_member freshMemberId
        ⟨freshMemberId, manager_email, invite_email, ("Pending"),
          ("https://aisuitup.com/generate/" ++ invite_email),
          ("https://aisuitup.com/results/" ++ invite_email), 1⟩
        st1).creditRecords = st1.creditRecords := rfl
    rw [get_credits_congr m2 _ _ hcr]
    exact hoth m2 hm2

/-- The concrete state of the C9 witness: a manager with two credits and
an empty roster. -/
def C9_store : Store := ⟨[], [⟨"r1", "m@x.com", 2⟩]⟩

/-- Claim C9 witness: the success theorem applied at the concrete state —
the invite succeeds, the balance drops from 2 to 1, and exactly one
Pending member with one credit appears. -/
theorem C9_invite_success_witness :
    ∃ st2,
      invite_team_member ⟨"noreply@x.com", true⟩ ("coupon-9") ("c9") ("t9")
          ("a@b.com") ("m@x.com") C9_store =
        ⟨Except.ok ⟨("invited"), ("a@b.com")⟩, st2,
          [⟨("a@b.com"), ("Your Coupon for AI SuitUp"),
            ("<strong>Your coupon code is: " ++ "coupon-9" ++ "</strong>"),
            true⟩]⟩ ∧
      get_credits ("m@x.com") st2 = get_credits ("m@x.com") C9_store - 1 ∧
      st2.teamMembers = C9_store.teamMembers ++
        [⟨"t9", "m@x.com", "a@b.com", ("Pending"),
          ("https://aisuitup.com/generate/" ++ "a@b.com"),
          ("https://aisuitup.com/results/" ++ "a@b.com"), 1⟩] ∧
      (∀ m2, m2 ≠ "m@x.com" →
        get_credits m2 st2 = get_credits m2 C9_store) :=
  C9_invite_success ⟨"noreply@x.com", true⟩ ("coupon-9") ("c9") ("t9")
    ("a@b.com") ("m@x.com") C9_store (by decide) (by decide) (by rfl)
    (by decide) (by rfl) (by decide)

/-- The email environment of the C1 evaluation: sender configured, but the
SendGrid API call fails. -/
def C1_env : EmailEnv := ⟨"noreply@x.com", false⟩

/-- The concrete state of the C1 evaluation: a manager with one credit
and an empty roster. -/
def C1_store : Store := ⟨[], [⟨"r1", "m@x.com", 1⟩]⟩

/-- Claim C1 evaluation at the failing input: an invite whose SendGrid
delivery fails (the provider error is caught and logged inside
`send_mail`) does NOT abort — it returns the invited status, debits the
manager's credit from 1 to 0, and creates the Pending member record,
contradicting the claim that an email-send failure aborts with 500 before
the debit and the roster write.  (Only the `ValueError` paths of
`send_mail` — missing sender or recipient address — reach the 500
abort.) -/
theorem C1_email_failure_not_aborting :
    invite_team_member C1_env ("coupon-1") ("c1") ("t1") ("a@b.com")
        ("m@x.com") C1_store =
      ⟨Except.ok ⟨("invited"), ("a@b.com")⟩,
        ⟨[⟨"t1", "m@x.com", "a@b.com", "Pending",
            "https://aisuitup.com/generate/a@b.com",
            "https://aisuitup.com/results/a@b.com", 1⟩],
          [⟨"r1", "m@x.com", 0⟩]⟩,
        [⟨"a@b.com", "Your Coupon for AI SuitUp",
          "<strong>Your coupon code is: coupon-1</strong>", false⟩]⟩ ∧
    get_credits ("m@x.com")
      ⟨[⟨"t1", "m@x.com", "a@b.com", "Pending",
          "https://aisuitup.com/generate/a@b.com",
          "https://aisuitup.com/results/a@b.com", 1⟩],
        [⟨"r1", "m@x.com", 0⟩]⟩ = 0 := by
  constructor
  · rfl
  · rfl

/-- The email environment of the C2 evaluation: sender configured and the
SendGrid API call succeeds. -/
def C2_env : EmailEnv := ⟨"noreply@x.com", true⟩

/-- The concrete state of the C2 evaluation: an empty store, so the
manager's balance reads 0. -/
def C2_store : Store := ⟨[], []⟩

/-- Claim C2 evaluation at the failing input: an invite with manager
balance 0 that passes the first three checks sends the coupon email
BEFORE the balance is checked, and then fails with status 500 (the
`HTTPException(400)` raised for insufficient credits is swallowed by the
function's own catch-all handler and re-raised as a 500) — contradicting
the claim that the InsufficientCredits check yields 400 and precedes every
success-path effect.  The balance is left at 0 and no roster write
occurs. -/
theorem C2_insufficient_credits_evaluation :
    invite_team_member C2_env ("coupon-2") ("c2") ("t2") ("a@b.com")
        ("m@x.com") C2_store =
      ⟨Except.error ⟨500, ("An unexpected error occurred: " ++
          "400: Not enough credits. Please buy credits first.")⟩,
        C2_store,
        [⟨"a@b.com", "Your Coupon for AI SuitUp",
          "<strong>Your coupon code is: coupon-2</strong>", true⟩]⟩ ∧
    get_credits ("m@x.com") C2_store = 0 := by
  constructor
  · rfl
  · rfl
